import Mathlib

/-!
Shallow embedding of the langchain-agent repository's core components, for
checking the natural-language specification against the code.

Components modelled here, each translated from the TypeScript source:
* `TaskAgentV1` / `TaskAgentV2` — the two `TaskAgent` implementations found in
  `src/core/agents/TaskAgent.ts` (the file contains two concatenated variants).
  The first variant sorts subtasks by dependencies before executing
  (`sortSubtasksByDependencies`, `executeSubtasks`, `handleTask`);
  the second variant's `executeSubtasks` iterates the subtask list in the
  given order without any dependency sort.
* `MessageBus` — `MessageBus` from the bus module (`initialize`, `publish`,
  `subscribe`, `unsubscribe`, `shutdown`).  Handler callbacks are represented
  by numeric identities plus an environment mapping each handler to its
  behaviour; `publish` returns the publisher-visible result together with the
  per-handler dispatch outcomes (each handler call's caught result), so
  delivery and isolation are observable.
* `RegistryT` — the `AgentRegistry` implementation embedded in
  `src/core/agents/__tests__/BaseAgent.test.ts` (checks duplicate ids and
  unknown ids); `RegistryJs` — `src/core/agents/AgentRegistry.ts`
  (no duplicate check, silent return on unknown id).
* `LogAnalyzer.analyzeToolUsage` — `src/core/logging/LogAnalyzer.ts`.
* `prepareTrainingData` — the pure curation pipeline of `src/scripts/train.ts`
  (filter, group by tool, balance); file output and provenance logging are
  I/O and are outside the modelled dataset computation.

Collaborator effects (tool invocations, agent `initialize`/`shutdown`,
handler callbacks) are modelled as explicit environments/fields returning
`Except`; invocation traces are returned alongside results so that claims
about "which tools ran" are statable.
-/

/-! ### JavaScript string helpers
`jsToLower` models `String.prototype.toLowerCase` (ASCII case mapping),
`jsIncludes` models `String.prototype.includes` (substring containment). -/

/-- Does `pat` occur at the head of `hay`? -/
def charsHasPre : List Char → List Char → Bool
  | [], _ => true
  | _ :: _, [] => false
  | p :: ps, c :: cs => p == c && charsHasPre ps cs

/-- Does `pat` occur anywhere inside `hay`? -/
def charsIncludes : List Char → List Char → Bool
  | pat, [] => pat.isEmpty
  | pat, c :: cs => charsHasPre pat (c :: cs) || charsIncludes pat cs

/-- Model of JavaScript `haystack.includes(pattern)`. -/
def jsIncludes (haystack pat : String) : Bool :=
  charsIncludes pat.data haystack.data

/-- Model of JavaScript `s.toLowerCase()` on ASCII text. -/
def jsToLower (s : String) : String :=
  String.mk (s.data.map Char.toLower)

/-! ### Stable sort (model of JavaScript `Array.prototype.sort`)
JavaScript's sort is stable; a comparator `(a, b) => key(a) - key(b)` orders by
`key` ascending keeping the original relative order of equal keys.  An
insertion sort inserting strictly before the first larger element is stable. -/

/-- Insert `a` before the first element `b` with `lt a b`. -/
def insertSorted {α : Type} (lt : α → α → Bool) (a : α) : List α → List α
  | [] => [a]
  | b :: bs => if lt a b then a :: b :: bs else b :: insertSorted lt a bs

/-- Stable sort by the strict comparison `lt`. -/
def stableSortBy {α : Type} (lt : α → α → Bool) : List α → List α
  | [] => []
  | a :: as => insertSorted lt a (stableSortBy lt as)

theorem mem_insertSorted {α : Type} (lt : α → α → Bool) (a x : α) (l : List α) :
    x ∈ insertSorted lt a l ↔ x = a ∨ x ∈ l := by
  induction l with
  | nil => simp [insertSorted]
  | cons b bs ih =>
    simp only [insertSorted]
    by_cases h : lt a b = true
    · simp [h]
    · simp [h, ih]
      tauto

theorem mem_stableSortBy {α : Type} (lt : α → α → Bool) (x : α) (l : List α) :
    x ∈ stableSortBy lt l ↔ x ∈ l := by
  induction l with
  | nil => simp [stableSortBy]
  | cons a as ih => simp [stableSortBy, mem_insertSorted, ih]

/-! ### Task execution engine (`src/core/agents/TaskAgent.ts`) -/

/-- Subtask structure produced by the decomposition
(`SubtaskSchema` in `TaskAgent.ts`). -/
structure Subtask where
  description : String
  toolName : Option String := none
  parameters : Option (List (String × String)) := none
  dependencies : Option (List String) := none
deriving DecidableEq, Repr

/-- Errors thrown by the agent code (`AgentError` carries a message string in
the source; here each distinct message is a constructor).  `outOfFuel` is a
modelling artefact of the bounded recursion used for `visit`; the source
recursion's depth is bounded by the visiting set, and every theorem below
supplies enough fuel that this constructor is unreachable. -/
inductive AgentErr where
  | circularDependency
  | tooManySubtasks (generated maxSubtasks : Nat)
  | toolNotFound (name : String)
  | toolExecutionFailed (name : String)
  | subtaskFailed (description : String) (inner : AgentErr)
  | outOfFuel
deriving DecidableEq, Repr

/-- Registered tool: a name plus invocation behaviour
(`DynamicStructuredTool.invoke`). -/
structure ToolImpl where
  name : String
  run : List (String × String) → Except String String

/-- Record of one actual `tool.invoke` call: tool name and arguments. -/
abbrev ToolCall := String × List (String × String)

/-- Model of `BaseAgent.executeTool`: find the tool by name (throwing
`Tool not found` when absent), invoke it, and wrap invocation failures.
The second component records the `tool.invoke` calls that occurred. -/
def executeTool (tools : List ToolImpl) (name : String)
    (args : List (String × String)) : Except AgentErr String × List ToolCall :=
  match tools.find? (fun t => t.name == name) with
  | none => (.error (.toolNotFound name), [])
  | some t =>
    match t.run args with
    | .ok v => (.ok v, [(name, args)])
    | .error _ => (.error (.toolExecutionFailed name), [(name, args)])

/-- State of the depth-first traversal in `sortSubtasksByDependencies`:
the accumulated (push-ordered) `sorted` array and the `visited` and
`visiting` sets (JavaScript `Set`, kept as insertion-ordered lists). -/
structure SortState where
  sorted : List Subtask
  visited : List String
  visiting : List String
deriving DecidableEq, Repr

/-- Dependency loop inside `visit`: each dependency reference is looked up by
description among the decomposition's subtasks; a reference matching no
subtask is skipped (`if (depSubtask)` in the source).  `visitF` is the
recursive visit step applied to each found dependency. -/
def visitDeps (subtasks : List Subtask)
    (visitF : Subtask → SortState → Except AgentErr SortState) :
    List String → SortState → Except AgentErr SortState
  | [], st => .ok st
  | depId :: rest, st =>
    match subtasks.find? (fun s => s.description == depId) with
    | some dep =>
      match visitF dep st with
      | .error e => .error e
      | .ok st2 => visitDeps subtasks visitF rest st2
    | none => visitDeps subtasks visitF rest st

/-- Model of the recursive `visit` closure in `sortSubtasksByDependencies`
(first `TaskAgent` variant).  The subtask's description is its identity:
a node in `visiting` means a cycle; a node in `visited` is skipped; otherwise
the node is marked visiting, its dependencies are visited, and it is moved to
`visited` and pushed onto `sorted`.  `fuel` bounds the recursion depth (the
source recursion is bounded by the growth of the visiting set). -/
def visit : Nat → List Subtask → Subtask → SortState → Except AgentErr SortState
  | 0, _, _, _ => .error .outOfFuel
  | Nat.succ fuel, subtasks, subtask, st =>
    if st.visiting.contains subtask.description then
      .error .circularDependency
    else if st.visited.contains subtask.description then
      .ok st
    else
      match visitDeps subtasks (visit fuel subtasks) (subtask.dependencies.getD [])
          { st with visiting := st.visiting ++ [subtask.description] } with
      | .error e => .error e
      | .ok st2 =>
        .ok { sorted := st2.sorted ++ [subtask],
              visited := st2.visited ++ [subtask.description],
              visiting := st2.visiting.erase subtask.description }

/-- Outer loop of `sortSubtasksByDependencies`: visit every not-yet-visited
subtask in input order. -/
def sortLoop (subtasks : List Subtask) : List Subtask → SortState → Except AgentErr SortState
  | [], st => .ok st
  | s :: rest, st =>
    if st.visited.contains s.description then sortLoop subtasks rest st
    else
      match visit (subtasks.length + 2) subtasks s st with
      | .error e => .error e
      | .ok st2 => sortLoop subtasks rest st2

/-- Model of `sortSubtasksByDependencies` (first `TaskAgent` variant,
`TaskAgent.ts` lines 179–216). -/
def sortSubtasksByDependencies (subtasks : List Subtask) : Except AgentErr (List Subtask) :=
  (sortLoop subtasks subtasks ⟨[], [], []⟩).map (fun st => st.sorted)

/-- One `{ description, result }` entry of the ordered results list. -/
structure SubtaskResult where
  description : String
  result : String
deriving DecidableEq, Repr

/-- Body of the first variant's execution loop for one subtask: a subtask
naming a tool invokes it via `executeTool`; otherwise the description itself
is the result. -/
def executeOneV1 (tools : List ToolImpl) (subtask : Subtask) :
    Except AgentErr String × List ToolCall :=
  match subtask.toolName with
  | some name => executeTool tools name (subtask.parameters.getD [])
  | none => (.ok subtask.description, [])

namespace TaskAgentV1

/-- Execution loop over the (already sorted) subtasks: accumulate
`{description, result}` entries; the first failure wraps the error as
`Failed to execute subtask "…"` and aborts the remaining subtasks.
The trace component collects the tool invocations that actually occurred. -/
def runSubtaskList (tools : List ToolImpl) :
    List Subtask → Except AgentErr (List SubtaskResult) × List ToolCall
  | [] => (.ok [], [])
  | s :: rest =>
    match executeOneV1 tools s with
    | (.error e, tr) => (.error (.subtaskFailed s.description e), tr)
    | (.ok v, tr) =>
      match runSubtaskList tools rest with
      | (.error e, tr2) => (.error e, tr ++ tr2)
      | (.ok vs, tr2) => (.ok (⟨s.description, v⟩ :: vs), tr ++ tr2)

/-- Model of the first variant's `executeSubtasks` (`TaskAgent.ts`
lines 153–177): sort by dependencies, then execute in sorted order. -/
def executeSubtasks (tools : List ToolImpl) (subtasks : List Subtask) :
    Except AgentErr (List SubtaskResult) × List ToolCall :=
  match sortSubtasksByDependencies subtasks with
  | .error e => (.error e, [])
  | .ok sorted => runSubtaskList tools sorted

/-- Task status values (`Task.status`). -/
inductive TaskStatus where
  | pending | inProgress | completed | failed
deriving DecidableEq, Repr

/-- Outcome of `handleTask` for one task: final stored status, the result
returned to (or error propagated to) the caller, and the tool invocations. -/
structure HandleOutcome where
  status : TaskStatus
  result : Except AgentErr (List SubtaskResult)
  toolCalls : List ToolCall
deriving Repr

/-- Model of the first variant's `handleTask` (`TaskAgent.ts` lines 116–151)
from the point where the model has produced the decomposition `subtasks`:
if the count exceeds `maxSubtasks` the task fails at once with the
`Too many subtasks generated` error and nothing executes; otherwise the
subtasks are executed; the catch block marks the task `failed` and re-throws,
the success path marks it `completed`. -/
def handleTask (tools : List ToolImpl) (maxSubtasks : Nat)
    (subtasks : List Subtask) : HandleOutcome :=
  if subtasks.length > maxSubtasks then
    ⟨.failed, .error (.tooManySubtasks subtasks.length maxSubtasks), []⟩
  else
    match executeSubtasks tools subtasks with
    | (.ok rs, tr) => ⟨.completed, .ok rs, tr⟩
    | (.error e, tr) => ⟨.failed, .error e, tr⟩

end TaskAgentV1

namespace TaskAgentV2

/-- Model of the second variant's `executeSubtasks` (`TaskAgent.ts` lines
383–404): no dependency sort — the subtasks run in the given input order; a
subtask's tool is invoked only when it names a tool that is registered
(`subtask.toolName && this.tools.find(...)`), otherwise the description is
passed through. -/
def executeSubtasks (tools : List ToolImpl) :
    List Subtask → Except AgentErr (List SubtaskResult) × List ToolCall
  | [] => (.ok [], [])
  | s :: rest =>
    let step : Except AgentErr String × List ToolCall :=
      match s.toolName with
      | some name =>
        if (tools.find? (fun t => t.name == name)).isSome then
          executeTool tools name (s.parameters.getD [])
        else (.ok s.description, [])
      | none => (.ok s.description, [])
    match step with
    | (.error e, tr) => (.error (.subtaskFailed s.description e), tr)
    | (.ok v, tr) =>
      match executeSubtasks tools rest with
      | (.error e, tr2) => (.error e, tr ++ tr2)
      | (.ok vs, tr2) => (.ok (⟨s.description, v⟩ :: vs), tr ++ tr2)

end TaskAgentV2

/-! ### Message bus (`MessageBus` of the bus module) -/

/-- Message types of inter-agent communication (`MessageType` enum). -/
inductive MessageType where
  | taskRequest | taskResponse | ragRequest | ragResponse
  | toolRequest | toolResponse | oversightCheck | learningUpdate | systemEvent
deriving DecidableEq, Repr

/-- Priority levels for messages (`Priority` enum). -/
inductive Priority where
  | low | medium | high | critical
deriving DecidableEq, Repr

/-- Metadata attached to each message (`MessageMetadata`); `timestamp` is
optional here because `publish` stamps a missing one. -/
structure MessageMetadata where
  timestamp : Option Nat
  sender : String
  correlationId : String
  priority : Priority
deriving DecidableEq, Repr

/-- Core message structure (`Message`); the payload is opaque to the bus. -/
structure Message where
  id : String
  type : MessageType
  payload : String
  metadata : MessageMetadata
deriving DecidableEq, Repr

/-- Handler identity: subscribed callbacks are distinguished by reference in
the source; here by a number, with behaviour supplied by a `HandlerEnv`. -/
abbrev HandlerId := Nat

/-- Behaviour environment: what each handler does when called with a message
(`.error` models a handler that throws). -/
abbrev HandlerEnv := HandlerId → Message → Except String Unit

/-- State of `MessageBus`: the `initialized` flag and the
`Map<MessageType, Set<MessageHandler>>` of subscriptions (a JavaScript `Map`
and `Set` iterate in insertion order, modelled as ordered lists). -/
structure MessageBus where
  initialized : Bool
  handlers : List (MessageType × List HandlerId)
deriving DecidableEq, Repr

namespace MessageBus

/-- Fresh bus as built by the constructor. -/
def mk0 : MessageBus := ⟨false, []⟩

/-- Model of `MessageBus.initialize`: throws when the flag is already set,
otherwise sets it.  (The source keeps no separate shut-down state: `shutdown`
clears the same flag.) -/
def initializeBus (bus : MessageBus) : Except String MessageBus :=
  if bus.initialized then .error "MessageBus already initialized"
  else .ok { bus with initialized := true }

/-- Handler set currently subscribed to a type
(`this.handlers.get(message.type) || new Set()`). -/
def getHandlers (bus : MessageBus) (t : MessageType) : List HandlerId :=
  match bus.handlers.find? (fun kv => kv.1 == t) with
  | some kv => kv.2
  | none => []

/-- Dispatch loop of `publish`: each handler is called in turn inside
`try { await handler(message) } catch { console.error(...) }` — the call's
outcome is recorded and the loop continues regardless. -/
def dispatchAll (env : HandlerEnv) (m : Message) :
    List HandlerId → List (HandlerId × Except String Unit)
  | [] => []
  | h :: rest => (h, env h m) :: dispatchAll env m rest

/-- Model of `MessageBus.publish`: fails when not initialized; stamps a
missing (or zero, i.e. falsy) timestamp with the current time `now`; then
dispatches to every handler subscribed to the message's type, catching each
handler's error.  Returns the publisher-visible result together with the
per-handler outcomes. -/
def publish (env : HandlerEnv) (now : Nat) (bus : MessageBus) (msg : Message) :
    Except String Unit × List (HandlerId × Except String Unit) :=
  if bus.initialized = false then (.error "MessageBus not initialized", [])
  else
    let needsStamp : Bool :=
      match msg.metadata.timestamp with
      | none => true
      | some t => t == 0
    let m :=
      if needsStamp then
        { msg with metadata := { msg.metadata with timestamp := some now } }
      else msg
    (.ok (), dispatchAll env m (getHandlers bus msg.type))

/-- Model of `MessageBus.subscribe`: fails when not initialized; otherwise
adds the handler to the type's set (a `Set` ignores duplicates). -/
def subscribe (bus : MessageBus) (t : MessageType) (h : HandlerId) :
    Except String MessageBus :=
  if bus.initialized = false then .error "MessageBus not initialized"
  else if bus.handlers.any (fun kv => kv.1 == t) then
    .ok { bus with handlers := bus.handlers.map (fun kv =>
      if kv.1 == t then (kv.1, if kv.2.contains h then kv.2 else kv.2 ++ [h]) else kv) }
  else .ok { bus with handlers := bus.handlers ++ [(t, [h])] }

/-- Model of `MessageBus.unsubscribe`: fails when not initialized; removes the
handler from the type's set and drops the now-empty set entirely. -/
def unsubscribe (bus : MessageBus) (t : MessageType) (h : HandlerId) :
    Except String MessageBus :=
  if bus.initialized = false then .error "MessageBus not initialized"
  else
    match bus.handlers.find? (fun kv => kv.1 == t) with
    | none => .ok bus
    | some kv =>
      let rest := kv.2.erase h
      if rest.isEmpty then
        .ok { bus with handlers := bus.handlers.filter (fun kv2 => !(kv2.1 == t)) }
      else
        .ok { bus with handlers := bus.handlers.map (fun kv2 =>
          if kv2.1 == t then (kv2.1, rest) else kv2) }

/-- Model of `MessageBus.shutdown`: a plain return when not initialized
(no error), otherwise clears all handlers and resets the flag. -/
def shutdown (bus : MessageBus) : MessageBus :=
  if bus.initialized = false then bus
  else { initialized := false, handlers := [] }

end MessageBus

/-! ### Agent registries
Two implementations exist in the repository: the `AgentRegistry` class
embedded in `src/core/agents/__tests__/BaseAgent.test.ts` (with duplicate-id
and not-found checks) and `src/core/agents/AgentRegistry.ts` (without them).
An agent's collaborator effects (`initialize`, `shutdown`) are carried as
`Except`-valued fields.  Bus publications made by the registries go to an
initialized bus, on which `publish` never throws (see `MessageBus.publish`),
so they do not influence the registries' control flow and are not repeated
here. -/

deriving instance DecidableEq for Except

/-- Registered agent as the registries see it: identity plus the outcome of
its own `initialize`/`shutdown` calls. -/
structure AgentModel where
  id : String
  name : String
  initResult : Except String Unit
  shutdownResult : Except String Unit
deriving DecidableEq, Repr

/-- Registry errors (`AgentRegistryError` messages as constructors;
`external` carries a propagated collaborator failure). -/
inductive RegErr where
  | notInitialized
  | missingId
  | duplicateId (id : String)
  | notFound (id : String)
  | registerFailed (name msg : String)
  | unregisterFailed (id msg : String)
  | external (msg : String)
deriving DecidableEq, Repr

/-- State of the registry embedded in `BaseAgent.test.ts`: the agent map
(insertion-ordered, keys unique) and its own `initialized` flag. -/
structure RegistryT where
  agents : List (String × AgentModel)
  initialized : Bool
deriving DecidableEq, Repr

namespace RegistryT

/-- Model of the embedded `AgentRegistry.registerAgent`
(`BaseAgent.test.ts` lines 828–860): requires the registry initialized and
the agent to carry an id, fails with `already registered` when the id exists,
otherwise initializes the agent (wrapping a failure) and stores it. -/
def registerAgent (r : RegistryT) (agent : AgentModel) : Except RegErr RegistryT :=
  if r.initialized = false then .error .notInitialized
  else if agent.id == "" then .error .missingId
  else if (r.agents.find? (fun kv => kv.1 == agent.id)).isSome then
    .error (.duplicateId agent.id)
  else
    match agent.initResult with
    | .error e => .error (.registerFailed agent.name e)
    | .ok _ => .ok { r with agents := r.agents ++ [(agent.id, agent)] }

/-- Model of the embedded `AgentRegistry.unregisterAgent`
(`BaseAgent.test.ts` lines 865–888): fails with `not found` when the id is
unknown, otherwise shuts the agent down (wrapping a failure) and removes it. -/
def unregisterAgent (r : RegistryT) (agentId : String) : Except RegErr RegistryT :=
  match r.agents.find? (fun kv => kv.1 == agentId) with
  | none => .error (.notFound agentId)
  | some kv =>
    match kv.2.shutdownResult with
    | .error e => .error (.unregisterFailed agentId e)
    | .ok _ => .ok { r with agents := r.agents.filter (fun kv2 => !(kv2.1 == agentId)) }

end RegistryT

/-- State of `AgentRegistry.ts`: only the agent map. -/
structure RegistryJs where
  agents : List (String × AgentModel)
deriving DecidableEq, Repr

/-- JavaScript `Map.set`: replace the value at an existing key in place,
otherwise append a new entry. -/
def mapSet (m : List (String × AgentModel)) (k : String) (v : AgentModel) :
    List (String × AgentModel) :=
  if m.any (fun kv => kv.1 == k) then
    m.map (fun kv => if kv.1 == k then (kv.1, v) else kv)
  else m ++ [(k, v)]

namespace RegistryJs

/-- Model of `AgentRegistry.registerAgent` (`AgentRegistry.ts` lines 29–58):
requires an id, then stores the agent with `Map.set` — no duplicate check, so
an existing id is silently overwritten — and publishes an announcement. -/
def registerAgent (r : RegistryJs) (agent : AgentModel) : Except RegErr RegistryJs :=
  if agent.id == "" then .error .missingId
  else .ok { agents := mapSet r.agents agent.id agent }

/-- Model of `AgentRegistry.unregisterAgent` (`AgentRegistry.ts` lines
63–88): a plain `return` when the id is unknown — no error — otherwise shuts
the agent down (a failure propagates unwrapped) and removes it. -/
def unregisterAgent (r : RegistryJs) (agentId : String) : Except RegErr RegistryJs :=
  match r.agents.find? (fun kv => kv.1 == agentId) with
  | none => .ok r
  | some kv =>
    match kv.2.shutdownResult with
    | .error e => .error (.external e)
    | .ok _ => .ok { agents := r.agents.filter (fun kv2 => !(kv2.1 == agentId)) }

end RegistryJs

/-! ### Log analyzer (`src/core/logging/LogAnalyzer.ts`) -/

/-- One `ToolUsageLog` record (`Logger.ts`): note that the record carries no
response-time or duration field. -/
structure ToolUsageLog where
  toolName : String
  parameters : List (String × String)
  result : String
  success : Bool
  error : Option String := none
  timestamp : Nat
deriving DecidableEq, Repr

/-- Per-tool accumulator of `analyzeToolUsage`: `totalTime` is initialized to
0 and — exactly as in the source — never incremented by any record. -/
structure ToolStats where
  uses : Nat
  successes : Nat
  totalTime : Nat
  parameters : List (String × Nat)
  errors : List (String × Nat)
deriving DecidableEq, Repr

/-- Per-tool entry of the `analyzeToolUsage` report (`ToolAnalysis`). -/
structure ToolAnalysis where
  name : String
  totalUses : Nat
  successRate : ℚ
  averageResponseTime : ℚ
  commonParameters : List (String × Nat)
  commonErrors : List (String × Nat)
deriving DecidableEq, Repr

/-- Increment a counter map entry (`map.get(k) || 0` then `map.set`),
appending a fresh key at the end as a JavaScript `Map` does. -/
def bumpCount (m : List (String × Nat)) (k : String) : List (String × Nat) :=
  if m.any (fun kv => kv.1 == k) then
    m.map (fun kv => if kv.1 == k then (kv.1, kv.2 + 1) else kv)
  else m ++ [(k, 1)]

/-- Fold one in-window record into its tool's accumulator: count the use and
the success, count each parameter key, count a non-empty error message
(`if (log.error)` is false for an absent or empty string).  No statement
updates `totalTime`. -/
def recordToolUsage (st : ToolStats) (log : ToolUsageLog) : ToolStats :=
  { uses := st.uses + 1,
    successes := st.successes + (if log.success then 1 else 0),
    totalTime := st.totalTime,
    parameters := log.parameters.foldl (fun m kv => bumpCount m kv.1) st.parameters,
    errors :=
      match log.error with
      | some e => if e == "" then st.errors else bumpCount st.errors e
      | none => st.errors }

/-- Group the filtered records by tool name into accumulators
(`toolStats` map in the source, insertion-ordered). -/
def toolStatsFold (logs : List ToolUsageLog) : List (String × ToolStats) :=
  logs.foldl (fun m log =>
    let m1 := if m.any (fun kv => kv.1 == log.toolName) then m
              else m ++ [(log.toolName, ⟨0, 0, 0, [], []⟩)]
    m1.map (fun kv => if kv.1 == log.toolName then (kv.1, recordToolUsage kv.2 log) else kv)) []

/-- Model of `LogAnalyzer.analyzeToolUsage` (lines 31–91): filter the records
to the trailing window (`timestamp >= cutoff`), group by tool name, and
report per tool the total uses, `successes / uses`, `totalTime / uses`, the
10 most frequent parameter keys and the 5 most frequent error messages
(sorted by descending count, JavaScript's stable sort). -/
def analyzeToolUsage (logs : List ToolUsageLog) (cutoff : Nat) : List ToolAnalysis :=
  let recent := logs.filter (fun log => cutoff ≤ log.timestamp)
  (toolStatsFold recent).map (fun kv =>
    { name := kv.1,
      totalUses := kv.2.uses,
      successRate := (kv.2.successes : ℚ) / (kv.2.uses : ℚ),
      averageResponseTime := (kv.2.totalTime : ℚ) / (kv.2.uses : ℚ),
      commonParameters := (stableSortBy (fun a b => b.2 < a.2) kv.2.parameters).take 10,
      commonErrors := (stableSortBy (fun a b => b.2 < a.2) kv.2.errors).take 5 })

/-! ### Training-data curation (`src/scripts/train.ts`) -/

/-- One sample of the raw fine-tuning dataset
(`generateFineTuningDataset` output shape). -/
structure TrainingSample where
  input : String
  toolName : String
  parameters : List (String × String)
  reasoning : String
  success : Bool
  executionTime : Nat
deriving DecidableEq, Repr

/-- Curation configuration (`TrainingConfig`). -/
structure TrainingConfig where
  minSuccessRate : ℚ
  minSampleSize : Nat
  maxSamplesPerTool : Nat
  excludePatterns : List String
deriving DecidableEq, Repr

/-- The source's `DEFAULT_CONFIG`. -/
def DEFAULT_CONFIG : TrainingConfig :=
  { minSuccessRate := 9 / 10,
    minSampleSize := 100,
    maxSamplesPerTool := 1000,
    excludePatterns := ["error", "failed", "timeout", "invalid"] }

/-- The exclusion test of `prepareTrainingData`: some configured pattern
occurs verbatim in the lowercased command text or the lowercased reasoning
text (`sample.input.toLowerCase().includes(pattern) || ...` — note the
pattern itself is not lowercased by the source). -/
def hasExcludedPattern (config : TrainingConfig) (s : TrainingSample) : Bool :=
  config.excludePatterns.any (fun pat =>
    jsIncludes (jsToLower s.input) pat || jsIncludes (jsToLower s.reasoning) pat)

/-- Append a sample to its tool's group (insertion-ordered `Map`). -/
def addToGroups (gs : List (String × List TrainingSample)) (s : TrainingSample) :
    List (String × List TrainingSample) :=
  if gs.any (fun kv => kv.1 == s.toolName) then
    gs.map (fun kv => if kv.1 == s.toolName then (kv.1, kv.2 ++ [s]) else kv)
  else gs ++ [(s.toolName, [s])]

/-- Model of the dataset computation of `prepareTrainingData` (`train.ts`
lines 37–81): drop unsuccessful samples and samples matching an exclusion
pattern, group the rest by tool name, drop groups below `minSampleSize`, and
within each surviving group sort ascending by execution time and keep at most
`maxSamplesPerTool` samples. -/
def prepareTrainingData (config : TrainingConfig) (dataset : List TrainingSample) :
    List TrainingSample :=
  let cleanedDataset := dataset.filter (fun s => s.success && !hasExcludedPattern config s)
  let toolGroups := cleanedDataset.foldl addToGroups []
  toolGroups.foldl (fun acc kv =>
    if kv.2.length < config.minSampleSize then acc
    else acc ++ (stableSortBy (fun a b => a.executionTime < b.executionTime) kv.2).take
      config.maxSamplesPerTool) []

/-! ## Concrete data used by the theorems -/

/-- Subtask A of the A/B/C dependency chain: no dependencies. -/
def stA : Subtask := { description := "A" }

/-- Subtask B: depends on A. -/
def stB : Subtask := { description := "B", dependencies := some ["A"] }

/-- Subtask C: depends on B. -/
def stC : Subtask := { description := "C", dependencies := some ["B"] }

/-- The six possible input orders of the decomposition {A, B, C}. -/
def ordersABC : List (List Subtask) :=
  [[stA, stB, stC], [stA, stC, stB], [stB, stA, stC],
   [stB, stC, stA], [stC, stA, stB], [stC, stB, stA]]

/-! ## C1 -/

/-- C1, counterexample: the second `TaskAgent` variant's `executeSubtasks`
(`TaskAgent.ts` lines 383–404) — explicitly cited by the claim — performs no
dependency sort, so submitting the decomposition {A, B (dep A), C (dep B)} in
the input order C, B, A executes (and reports) C, then B, then A, not
A, B, C. -/
theorem taskAgentV2_input_order_counterexample :
    TaskAgentV2.executeSubtasks [] [stC, stB, stA] =
      (.ok [⟨"C", "C"⟩, ⟨"B", "B"⟩, ⟨"A", "A"⟩], []) ∧
    (TaskAgentV2.executeSubtasks [] [stC, stB, stA]).1 ≠
      .ok [⟨"A", "A"⟩, ⟨"B", "B"⟩, ⟨"C", "C"⟩] := by
  exact ⟨rfl, by decide⟩

/-- C1 (amended): for the first `TaskAgent` variant, whose `executeSubtasks`
(lines 153–177) first sorts via `sortSubtasksByDependencies`, the
decomposition {A (no deps), B (dep A), C (dep B)} submitted in any of its six
input orders executes A, then B, then C — every dependency before its
dependents.  (The second variant executes in input order; see the
counterexample.) -/
theorem taskAgentV1_executes_dependency_order
    (tools : List ToolImpl) (l : List Subtask) (h : l ∈ ordersABC) :
    TaskAgentV1.executeSubtasks tools l =
      (.ok [⟨"A", "A"⟩, ⟨"B", "B"⟩, ⟨"C", "C"⟩], []) := by
  fin_cases h <;> rfl

/-- C1, witness: the amended theorem applied to the input order C, B, A. -/
theorem taskAgentV1_executes_dependency_order_witness :
    TaskAgentV1.executeSubtasks [] [stC, stB, stA] =
      (.ok [⟨"A", "A"⟩, ⟨"B", "B"⟩, ⟨"C", "C"⟩], []) :=
  taskAgentV1_executes_dependency_order [] [stC, stB, stA] (by decide)

/-! ## C2 -/

/-- C2: a decomposition of two subtasks that depend on each other — whatever
their tool names and parameters, in either input order — makes
`executeSubtasks` (first variant) fail with the circular-dependency error
from the depth-first `visiting`-set traversal, with zero tool invocations;
`handleTask` (for any `maxSubtasks` admitting the two subtasks) marks the
task failed with that error and an empty invocation trace. -/
theorem circular_dependency_fails_before_tool_calls
    (tools : List ToolImpl) (tA tB : Option String)
    (pA pB : Option (List (String × String))) (maxSubtasks : Nat)
    (hmax : 2 ≤ maxSubtasks) :
    TaskAgentV1.executeSubtasks tools
      [⟨"A", tA, pA, some ["B"]⟩, ⟨"B", tB, pB, some ["A"]⟩] =
      (.error .circularDependency, []) ∧
    TaskAgentV1.executeSubtasks tools
      [⟨"B", tB, pB, some ["A"]⟩, ⟨"A", tA, pA, some ["B"]⟩] =
      (.error .circularDependency, []) ∧
    TaskAgentV1.handleTask tools maxSubtasks
      [⟨"A", tA, pA, some ["B"]⟩, ⟨"B", tB, pB, some ["A"]⟩] =
      ⟨.failed, .error .circularDependency, []⟩ ∧
    TaskAgentV1.handleTask tools maxSubtasks
      [⟨"B", tB, pB, some ["A"]⟩, ⟨"A", tA, pA, some ["B"]⟩] =
      ⟨.failed, .error .circularDependency, []⟩ := by
  have e1 : TaskAgentV1.executeSubtasks tools
      [⟨"A", tA, pA, some ["B"]⟩, ⟨"B", tB, pB, some ["A"]⟩] =
      (.error .circularDependency, []) := rfl
  have e2 : TaskAgentV1.executeSubtasks tools
      [⟨"B", tB, pB, some ["A"]⟩, ⟨"A", tA, pA, some ["B"]⟩] =
      (.error .circularDependency, []) := rfl
  refine ⟨e1, e2, ?_, ?_⟩ <;>
    simp [TaskAgentV1.handleTask, e1, e2, Nat.not_lt.mpr hmax]

/-- C2, witness: the theorem applied to tool-less mutually dependent subtasks
with the default maximum of 10. -/
theorem circular_dependency_fails_before_tool_calls_witness :
    TaskAgentV1.handleTask [] 10
      [⟨"A", none, none, some ["B"]⟩, ⟨"B", none, none, some ["A"]⟩] =
      ⟨.failed, .error .circularDependency, []⟩ :=
  (circular_dependency_fails_before_tool_calls [] none none none none 10
    (by decide)).2.2.1

/-! ## C3 -/

/-- C3: when the decomposition's subtask count exceeds `maxSubtasks`,
`handleTask` fails immediately with the `Too many subtasks generated` error,
the task is marked failed and no subtask executes (empty invocation trace);
when the count is at or below the maximum, `handleTask` proceeds to execute
the subtasks, completing on success and failing with the propagated error
otherwise. -/
theorem subtask_count_guard (tools : List ToolImpl) (maxSubtasks : Nat)
    (subtasks : List Subtask) :
    (subtasks.length > maxSubtasks →
      TaskAgentV1.handleTask tools maxSubtasks subtasks =
        ⟨.failed, .error (.tooManySubtasks subtasks.length maxSubtasks), []⟩) ∧
    (subtasks.length ≤ maxSubtasks →
      TaskAgentV1.handleTask tools maxSubtasks subtasks =
        match TaskAgentV1.executeSubtasks tools subtasks with
        | (.ok rs, tr) => ⟨.completed, .ok rs, tr⟩
        | (.error e, tr) => ⟨.failed, .error e, tr⟩) := by
  constructor
  · intro h
    simp [TaskAgentV1.handleTask, h]
  · intro h
    simp [TaskAgentV1.handleTask, Nat.not_lt.mpr h]

/-- C3, witness: `maxSubtasks = 2` with a 3-subtask decomposition fails with
the count error and an empty trace, and the same decomposition passes the
guard with `maxSubtasks = 3`. -/
theorem subtask_count_guard_witness :
    TaskAgentV1.handleTask [] 2
      [{ description := "x" }, { description := "y" }, { description := "z" }] =
      ⟨.failed, .error (.tooManySubtasks 3 2), []⟩ ∧
    TaskAgentV1.handleTask [] 3
      [{ description := "x" }, { description := "y" }, { description := "z" }] =
      match TaskAgentV1.executeSubtasks []
        [{ description := "x" }, { description := "y" }, { description := "z" }] with
      | (.ok rs, tr) => ⟨.completed, .ok rs, tr⟩
      | (.error e, tr) => ⟨.failed, .error e, tr⟩ :=
  ⟨(subtask_count_guard [] 2 _).1 (by decide),
   (subtask_count_guard [] 3 _).2 (by decide)⟩

/-! ## C4 -/

/-- C4: in a three-subtask sequence s1, s2, s3 (no dependencies, so the sort
keeps the input order) where s1's tool succeeds and s2's tool raises,
execution aborts after s2 — the invocation trace is exactly s1's call then
s2's call, so s3's tool never runs and s1's already-performed invocation is
retained (not rolled back) — the wrapped error propagates, and `handleTask`
marks the task failed with that error. -/
theorem subtask_failure_aborts_remaining
    (tools : List ToolImpl) (t1 t2 t3 : String)
    (p1 p2 p3 : List (String × String)) (tool1 tool2 : ToolImpl)
    (v1 msg : String)
    (h1 : tools.find? (fun t => t.name == t1) = some tool1)
    (h1r : tool1.run p1 = .ok v1)
    (h2 : tools.find? (fun t => t.name == t2) = some tool2)
    (h2r : tool2.run p2 = .error msg) :
    TaskAgentV1.executeSubtasks tools
      [⟨"s1", some t1, some p1, none⟩, ⟨"s2", some t2, some p2, none⟩,
       ⟨"s3", some t3, some p3, none⟩] =
      (.error (.subtaskFailed "s2" (.toolExecutionFailed t2)), [(t1, p1), (t2, p2)]) ∧
    TaskAgentV1.handleTask tools 10
      [⟨"s1", some t1, some p1, none⟩, ⟨"s2", some t2, some p2, none⟩,
       ⟨"s3", some t3, some p3, none⟩] =
      ⟨.failed, .error (.subtaskFailed "s2" (.toolExecutionFailed t2)),
        [(t1, p1), (t2, p2)]⟩ := by
  have hsort : sortSubtasksByDependencies
      [⟨"s1", some t1, some p1, none⟩, ⟨"s2", some t2, some p2, none⟩,
       ⟨"s3", some t3, some p3, none⟩] =
      .ok [⟨"s1", some t1, some p1, none⟩, ⟨"s2", some t2, some p2, none⟩,
       ⟨"s3", some t3, some p3, none⟩] := rfl
  have e1 : TaskAgentV1.executeSubtasks tools
      [⟨"s1", some t1, some p1, none⟩, ⟨"s2", some t2, some p2, none⟩,
       ⟨"s3", some t3, some p3, none⟩] =
      (.error (.subtaskFailed "s2" (.toolExecutionFailed t2)), [(t1, p1), (t2, p2)]) := by
    simp [TaskAgentV1.executeSubtasks, hsort, TaskAgentV1.runSubtaskList,
      executeOneV1, executeTool, h1, h1r, h2, h2r]
  refine ⟨e1, ?_⟩
  simp [TaskAgentV1.handleTask, e1]

/-- Demonstration tools for the C4 witness: the first succeeds, the second
raises. -/
def demoTool1 : ToolImpl := ⟨"t1", fun _ => .ok "v"⟩

/-- Failing tool for the C4 witness. -/
def demoTool2 : ToolImpl := ⟨"t2", fun _ => .error "boom"⟩

/-- C4, witness: the theorem applied to a concrete tool environment in which
tool `t1` succeeds and tool `t2` raises. -/
theorem subtask_failure_aborts_remaining_witness :
    TaskAgentV1.executeSubtasks [demoTool1, demoTool2]
      [⟨"s1", some "t1", some [], none⟩, ⟨"s2", some "t2", some [], none⟩,
       ⟨"s3", some "t3", some [], none⟩] =
      (.error (.subtaskFailed "s2" (.toolExecutionFailed "t2")),
       [("t1", []), ("t2", [])]) ∧
    TaskAgentV1.handleTask [demoTool1, demoTool2] 10
      [⟨"s1", some "t1", some [], none⟩, ⟨"s2", some "t2", some [], none⟩,
       ⟨"s3", some "t3", some [], none⟩] =
      ⟨.failed, .error (.subtaskFailed "s2" (.toolExecutionFailed "t2")),
        [("t1", []), ("t2", [])]⟩ :=
  subtask_failure_aborts_remaining [demoTool1, demoTool2] "t1" "t2" "t3"
    [] [] [] demoTool1 demoTool2 "v" "boom" rfl rfl rfl rfl

/-! ## C5 -/

/-- Helper: the dispatch loop calls exactly the handlers it is given, in
order, regardless of each handler's outcome. -/
theorem dispatchAll_fst (env : HandlerEnv) (m : Message) (hs : List HandlerId) :
    (MessageBus.dispatchAll env m hs).map Prod.fst = hs := by
  induction hs with
  | nil => rfl
  | cons h rest ih => simp [MessageBus.dispatchAll, ih]

/-- C5: on a Ready (initialized) bus, `publish` returns success to the
publisher whatever the handlers do (each handler's error is caught and
isolated), the invoked handlers are exactly those subscribed to the message's
type at dispatch time, each such handler is invoked exactly once (the
subscriber set holds no duplicates), and a message with zero subscribers for
its type publishes without error and invokes nothing. -/
theorem publish_delivers_exactly_once_isolated
    (bus : MessageBus) (env : HandlerEnv) (now : Nat) (msg : Message)
    (hinit : bus.initialized = true) :
    (MessageBus.publish env now bus msg).1 = .ok () ∧
    ((MessageBus.publish env now bus msg).2.map Prod.fst =
      MessageBus.getHandlers bus msg.type) ∧
    ((MessageBus.getHandlers bus msg.type).Nodup →
      ∀ h ∈ MessageBus.getHandlers bus msg.type,
        ((MessageBus.publish env now bus msg).2.map Prod.fst).count h = 1) ∧
    (MessageBus.getHandlers bus msg.type = [] →
      (MessageBus.publish env now bus msg).2 = []) := by
  have hfst : (MessageBus.publish env now bus msg).2.map Prod.fst =
      MessageBus.getHandlers bus msg.type := by
    simp [MessageBus.publish, hinit, dispatchAll_fst]
  refine ⟨by simp [MessageBus.publish, hinit], hfst, ?_, ?_⟩
  · intro hnodup h hmem
    rw [hfst]
    exact List.count_eq_one_of_mem hnodup hmem
  · intro hempty
    have := hfst
    rw [hempty] at this
    simpa using this

/-- Handler behaviours for the C5 witness: handler 0 raises, handler 1
succeeds. -/
def demoHandlerEnv : HandlerEnv := fun h _ => if h == 0 then .error "boom" else .ok ()

/-- Bus for the C5 witness: Ready, with handlers 0 and 1 subscribed to
system events. -/
def demoBus : MessageBus := ⟨true, [(.systemEvent, [0, 1])]⟩

/-- Message for the C5 witness. -/
def demoMsg : Message :=
  ⟨"m1", .systemEvent, "payload", ⟨some 7, "tester", "c1", .medium⟩⟩

/-- C5, witness: the theorem applied to a Ready bus with two subscribed
handlers of which the first raises — publish still succeeds and handler 1 is
invoked exactly once. -/
theorem publish_delivers_exactly_once_isolated_witness :
    (MessageBus.publish demoHandlerEnv 5 demoBus demoMsg).1 = .ok () ∧
    ((MessageBus.publish demoHandlerEnv 5 demoBus demoMsg).2.map Prod.fst).count 1 = 1 :=
  ⟨(publish_delivers_exactly_once_isolated demoBus demoHandlerEnv 5 demoMsg rfl).1,
   (publish_delivers_exactly_once_isolated demoBus demoHandlerEnv 5 demoMsg rfl).2.2.1
     (by decide) 1 (by decide)⟩

/-! ## C6 -/

/-- Agent "a" (first registration) for the C6 counterexample. -/
def agentA : AgentModel := ⟨"a", "Agent A", .ok (), .ok ()⟩

/-- A second, distinct agent carrying the same id "a". -/
def agentA2 : AgentModel := ⟨"a", "Agent A prime", .ok (), .ok ()⟩

/-- C6, counterexample: `AgentRegistry.ts` — cited by the claim — performs no
duplicate check and no not-found check: registering a second agent under the
already-registered id "a" succeeds (silently replacing the stored agent, so
both registrations succeed for one id), and unregistering the unknown id
"ghost" also succeeds instead of failing with NotFound. -/
theorem agentRegistryTs_counterexample :
    RegistryJs.registerAgent ⟨[("a", agentA)]⟩ agentA2 = .ok ⟨[("a", agentA2)]⟩ ∧
    RegistryJs.unregisterAgent ⟨[("a", agentA)]⟩ "ghost" = .ok ⟨[("a", agentA)]⟩ := by
  decide

/-- C6 (amended): the `AgentRegistry` embedded in `BaseAgent.test.ts` behaves
as claimed — on an initialized registry, `registerAgent` fails with the
duplicate-id error when the agent's id is already registered (so one id never
registers twice) and otherwise stores the agent; `unregisterAgent` fails with
the not-found error for an unknown id and otherwise removes the stored agent.
(`AgentRegistry.ts` instead overwrites on duplicate and silently returns on
unknown ids; see the counterexample.) -/
theorem registry_duplicate_and_notfound
    (r : RegistryT) (agent : AgentModel) (agentId : String)
    (hinit : r.initialized = true) (hid : agent.id ≠ "") :
    ((r.agents.find? (fun kv => kv.1 == agent.id)).isSome →
      RegistryT.registerAgent r agent = .error (.duplicateId agent.id)) ∧
    (r.agents.find? (fun kv => kv.1 == agent.id) = none →
      agent.initResult = .ok () →
      RegistryT.registerAgent r agent =
        .ok { r with agents := r.agents ++ [(agent.id, agent)] }) ∧
    (r.agents.find? (fun kv => kv.1 == agentId) = none →
      RegistryT.unregisterAgent r agentId = .error (.notFound agentId)) ∧
    (∀ kv, r.agents.find? (fun kv2 => kv2.1 == agentId) = some kv →
      kv.2.shutdownResult = .ok () →
      RegistryT.unregisterAgent r agentId =
        .ok { r with agents := r.agents.filter (fun kv2 => !(kv2.1 == agentId)) }) := by
  refine ⟨?_, ?_, ?_, ?_⟩
  · intro hdup
    simp [RegistryT.registerAgent, hinit, hid, hdup]
  · intro hfresh hok
    simp [RegistryT.registerAgent, hinit, hid, hfresh, hok]
  · intro hmiss
    simp [RegistryT.unregisterAgent, hmiss]
  · intro kv hfind hok
    simp [RegistryT.unregisterAgent, hfind, hok]

/-- Registry for the C6 witness: initialized, holding agent "a". -/
def demoRegistry : RegistryT := ⟨[("a", agentA)], true⟩

/-- C6, witness: on the embedded registry holding agent "a", re-registering
id "a" fails with the duplicate-id error and unregistering the unknown id
"ghost" fails with the not-found error. -/
theorem registry_duplicate_and_notfound_witness :
    RegistryT.registerAgent demoRegistry agentA2 = .error (.duplicateId "a") ∧
    RegistryT.unregisterAgent demoRegistry "ghost" = .error (.notFound "ghost") :=
  ⟨(registry_duplicate_and_notfound demoRegistry agentA2 "ghost" rfl (by decide)).1
     (by decide),
   (registry_duplicate_and_notfound demoRegistry agentA2 "ghost" rfl (by decide)).2.2.1
     (by decide)⟩

/-! ## C7 -/

/-- C7, counterexample: `MessageBus.shutdown` resets the same boolean that
`initialize` checks, so a bus that was Ready and then shut down can be
re-initialized: `initialize` after `shutdown` succeeds (returning a Ready
bus) instead of failing. -/
theorem messageBus_reinit_after_shutdown_counterexample :
    MessageBus.initializeBus (MessageBus.shutdown ⟨true, [(.systemEvent, [0])]⟩) =
      .ok ⟨true, []⟩ ∧
    (MessageBus.initializeBus
      (MessageBus.shutdown ⟨true, [(.systemEvent, [0])]⟩)).isOk = true := by
  exact ⟨rfl, rfl⟩

/-- C7 (amended): `initialize` fails when the bus is currently Ready and
succeeds otherwise — in particular it succeeds again after a shutdown, since
`shutdown` returns the bus to the uninitialized state (the source keeps no
separate Shutdown state); `shutdown` on a Ready bus drops all subscriptions,
and `shutdown` on a non-Ready bus (never initialized or already shut down) is
a no-op, not an error. -/
theorem messageBus_lifecycle (bus : MessageBus) :
    (bus.initialized = true →
      MessageBus.initializeBus bus = .error "MessageBus already initialized") ∧
    (bus.initialized = false →
      MessageBus.initializeBus bus = .ok { bus with initialized := true }) ∧
    (bus.initialized = false → MessageBus.shutdown bus = bus) ∧
    (bus.initialized = true → MessageBus.shutdown bus = ⟨false, []⟩) ∧
    (bus.initialized = true →
      MessageBus.initializeBus (MessageBus.shutdown bus) = .ok ⟨true, []⟩) := by
  refine ⟨?_, ?_, ?_, ?_, ?_⟩ <;> intro h <;>
    simp [MessageBus.initializeBus, MessageBus.shutdown, h]

/-- C7, witness: the lifecycle theorem applied to a Ready bus with one
subscription and to the fresh bus. -/
theorem messageBus_lifecycle_witness :
    MessageBus.initializeBus ⟨true, [(.systemEvent, [0])]⟩ =
      .error "MessageBus already initialized" ∧
    MessageBus.shutdown (⟨true, [(.systemEvent, [0])]⟩ : MessageBus) = ⟨false, []⟩ ∧
    MessageBus.shutdown MessageBus.mk0 = MessageBus.mk0 :=
  ⟨(messageBus_lifecycle ⟨true, [(.systemEvent, [0])]⟩).1 rfl,
   (messageBus_lifecycle ⟨true, [(.systemEvent, [0])]⟩).2.2.2.1 rfl,
   (messageBus_lifecycle MessageBus.mk0).2.2.1 rfl⟩

/-! ## C8 -/

/-- Fixture for C8: two in-window uses of tool "search", one successful. -/
def fixtureToolLogs : List ToolUsageLog :=
  [{ toolName := "search", parameters := [("q", "x")], result := "r1",
     success := true, timestamp := 100 },
   { toolName := "search", parameters := [("q", "y")], result := "r2",
     success := false, error := some "boom", timestamp := 200 }]

/-- C8: on the fixture of N = 2 uses with K = 1 success, `analyzeToolUsage`
reports totalUses = 2 and successRate = 1/2 exactly as claimed, but
averageResponseTime = 0: the accumulator `totalTime` is initialized to 0 and
never incremented by the analysis loop (the ToolUsage record carries no
response-time field), so the reported value is `0 / uses`, not the mean
response time of the uses. -/
theorem analyzeToolUsage_zero_responseTime :
    analyzeToolUsage fixtureToolLogs 50 =
      [{ name := "search", totalUses := 2, successRate := 1 / 2,
         averageResponseTime := 0, commonParameters := [("q", 2)],
         commonErrors := [("boom", 1)] }] := by
  norm_num [analyzeToolUsage, fixtureToolLogs, toolStatsFold, recordToolUsage,
    bumpCount, stableSortBy, insertSorted, List.filter, List.foldl]

/-! ## C9 -/

/-- Configuration with an upper-case exclusion pattern for the C9
counterexample. -/
def cfgUpper : TrainingConfig :=
  { minSuccessRate := 0, minSampleSize := 1, maxSamplesPerTool := 5,
    excludePatterns := ["TIMEOUT"] }

/-- Successful sample whose command text contains "timeout". -/
def sampleTimeout : TrainingSample :=
  { input := "timeout occurred", toolName := "t", parameters := [],
    reasoning := "", success := true, executionTime := 3 }

/-- C9, counterexample: with the configured exclusion substring "TIMEOUT",
the sample whose command text "timeout occurred" contains that substring
case-insensitively is NOT excluded — it appears in the emitted balanced
dataset — because the source lowercases only the record text and matches the
pattern verbatim (`sample.input.toLowerCase().includes(pattern)`). -/
theorem prepareTrainingData_case_counterexample :
    jsIncludes (jsToLower sampleTimeout.input) (jsToLower "TIMEOUT") = true ∧
    prepareTrainingData cfgUpper [sampleTimeout] = [sampleTimeout] := by
  decide

/-- Helper: every element of every group built by `addToGroups` folding is
either in the starting groups or one of the folded samples. -/
theorem mem_of_mem_addToGroups_foldl
    (l : List TrainingSample) (gs : List (String × List TrainingSample))
    (kv : String × List TrainingSample) (x : TrainingSample)
    (hkv : kv ∈ l.foldl addToGroups gs) (hx : x ∈ kv.2) :
    (∃ kv0 ∈ gs, x ∈ kv0.2) ∨ x ∈ l := by
  induction l generalizing gs with
  | nil =>
    simp only [List.foldl_nil] at hkv
    exact .inl ⟨kv, hkv, hx⟩
  | cons s rest ih =>
    simp only [List.foldl_cons] at hkv
    rcases ih (addToGroups gs s) hkv with ⟨kv0, hkv0, hx0⟩ | hxl
    · unfold addToGroups at hkv0
      by_cases hany : gs.any (fun kv2 => kv2.1 == s.toolName)
      · simp only [hany, if_true] at hkv0
        rcases List.mem_map.mp hkv0 with ⟨kv1, hkv1, hkv1eq⟩
        by_cases hk : kv1.1 == s.toolName
        · simp only [hk, if_true] at hkv1eq
          subst hkv1eq
          simp only at hx0
          rcases List.mem_append.mp hx0 with hin | hs
          · exact .inl ⟨kv1, hkv1, hin⟩
          · simp at hs
            subst hs
            simp
        · simp only [hk, if_false] at hkv1eq
          subst hkv1eq
          exact .inl ⟨kv1, hkv1, hx0⟩
      · simp only [hany, if_false] at hkv0
        rcases List.mem_append.mp hkv0 with hin | hnew
        · exact .inl ⟨kv0, hin, hx0⟩
        · simp at hnew
          subst hnew
          simp at hx0
          subst hx0
          simp
    · simp [hxl]

/-- Helper: every element of the balancing fold over the groups comes from
the accumulator or from some group's sample list. -/
theorem mem_of_mem_balanceFold (config : TrainingConfig)
    (gs : List (String × List TrainingSample)) (acc : List TrainingSample)
    (s : TrainingSample)
    (hs : s ∈ gs.foldl (fun acc kv =>
      if kv.2.length < config.minSampleSize then acc
      else acc ++ (stableSortBy (fun a b => a.executionTime < b.executionTime) kv.2).take
        config.maxSamplesPerTool) acc) :
    s ∈ acc ∨ ∃ kv ∈ gs, s ∈ kv.2 := by
  induction gs generalizing acc with
  | nil => simp only [List.foldl_nil] at hs; exact .inl hs
  | cons kv rest ih =>
    simp only [List.foldl_cons] at hs
    by_cases hlen : kv.2.length < config.minSampleSize
    · simp only [hlen, if_true] at hs
      rcases ih _ hs with hacc | ⟨kv1, hkv1, hskv1⟩
      · exact .inl hacc
      · exact .inr ⟨kv1, by simp [hkv1], hskv1⟩
    · simp only [hlen, if_false] at hs
      rcases ih _ hs with hacc | ⟨kv1, hkv1, hskv1⟩
      · rcases List.mem_append.mp hacc with hacc' | htake
        · exact .inl hacc'
        · refine .inr ⟨kv, by simp, ?_⟩
          have := List.take_subset _ _ htake
          exact (mem_stableSortBy _ s kv.2).mp this
      · exact .inr ⟨kv1, by simp [hkv1], hskv1⟩

/-- C9 (amended): every sample in the balanced dataset emitted by
`prepareTrainingData` has `success = true`, and its lowercased command text
and lowercased reasoning text contain none of the configured exclusion
substrings verbatim.  So exclusion is case-insensitive in the record text but
verbatim in the pattern: with lowercase patterns — the defaults, including
"timeout" — every record containing a pattern case-insensitively is excluded,
while an upper-case configured pattern can fail to exclude (see the
counterexample). -/
theorem prepareTrainingData_excludes (config : TrainingConfig)
    (dataset : List TrainingSample) (s : TrainingSample)
    (hs : s ∈ prepareTrainingData config dataset) :
    s.success = true ∧
    ∀ pat ∈ config.excludePatterns,
      jsIncludes (jsToLower s.input) pat = false ∧
      jsIncludes (jsToLower s.reasoning) pat = false := by
  unfold prepareTrainingData at hs
  rcases mem_of_mem_balanceFold config _ _ s hs with hfalse | ⟨kv, hkv, hskv⟩
  · simp at hfalse
  · rcases mem_of_mem_addToGroups_foldl _ _ _ _ hkv hskv with ⟨kv0, hkv0, _⟩ | hcl
    · simp at hkv0
    · have := List.mem_filter.mp hcl
      have hpred := this.2
      simp only [Bool.and_eq_true, Bool.not_eq_true'] at hpred
      refine ⟨hpred.1, ?_⟩
      intro pat hpat
      have hall := hpred.2
      unfold hasExcludedPattern at hall
      rw [List.any_eq_false] at hall
      have := hall pat hpat
      simp only [Bool.or_eq_true, not_or, Bool.not_eq_true] at this
      exact this

/-- Clean configuration and sample for the C9 witness. -/
def cfgClean : TrainingConfig :=
  { minSuccessRate := 0, minSampleSize := 1, maxSamplesPerTool := 5,
    excludePatterns := ["error", "failed", "timeout", "invalid"] }

/-- Sample free of all exclusion patterns. -/
def sampleClean : TrainingSample :=
  { input := "list files", toolName := "t", parameters := [],
    reasoning := "Using ls to enumerate", success := true, executionTime := 3 }

/-- C9, witness: the amended theorem applied to a surviving sample of a
concrete curation run with the default exclusion patterns. -/
theorem prepareTrainingData_excludes_witness :
    sampleClean.success = true ∧
    ∀ pat ∈ cfgClean.excludePatterns,
      jsIncludes (jsToLower sampleClean.input) pat = false ∧
      jsIncludes (jsToLower sampleClean.reasoning) pat = false :=
  prepareTrainingData_excludes cfgClean [sampleClean] sampleClean (by decide)

/-! ## C10 -/

/-- C10: subtask identity in the dependency sort is the description text.
First part: in a decomposition of two distinct subtasks sharing the
description "dup" — the first naming a succeeding tool, the second carrying
any tool name and parameters — only the first is visited and executed: the
ordered results list has the single entry produced by the first subtask and
the invocation trace holds only the first subtask's call, so there is one
entry per distinct description rather than one per subtask.  Second part: a
dependency reference ("missing") matching no subtask's description is
silently ignored — the subtask executes normally with no error. -/
theorem subtask_identity_by_description
    (tools : List ToolImpl) (t1 : String) (p1 : List (String × String))
    (tool1 : ToolImpl) (v1 : String) (tn2 : Option String)
    (ps2 : Option (List (String × String)))
    (h1 : tools.find? (fun t => t.name == t1) = some tool1)
    (h1r : tool1.run p1 = .ok v1) :
    TaskAgentV1.executeSubtasks tools
      [⟨"dup", some t1, some p1, none⟩, ⟨"dup", tn2, ps2, none⟩] =
      (.ok [⟨"dup", v1⟩], [(t1, p1)]) ∧
    TaskAgentV1.executeSubtasks tools [⟨"solo", none, none, some ["missing"]⟩] =
      (.ok [⟨"solo", "solo"⟩], []) := by
  have hsort : sortSubtasksByDependencies
      [⟨"dup", some t1, some p1, none⟩, ⟨"dup", tn2, ps2, none⟩] =
      .ok [⟨"dup", some t1, some p1, none⟩] := rfl
  constructor
  · simp [TaskAgentV1.executeSubtasks, hsort, TaskAgentV1.runSubtaskList,
      executeOneV1, executeTool, h1, h1r]
  · rfl

/-- C10, witness: the theorem applied to a concrete duplicate-description
decomposition using the succeeding demonstration tool. -/
theorem subtask_identity_by_description_witness :
    TaskAgentV1.executeSubtasks [demoTool1]
      [⟨"dup", some "t1", some [], none⟩, ⟨"dup", some "other", none, none⟩] =
      (.ok [⟨"dup", "v"⟩], [("t1", [])]) ∧
    TaskAgentV1.executeSubtasks [demoTool1]
      [⟨"solo", none, none, some ["missing"]⟩] =
      (.ok [⟨"solo", "solo"⟩], []) :=
  subtask_identity_by_description [demoTool1] "t1" [] demoTool1 "v"
    (some "other") none rfl rfl
